import Mathlib

/-!
Shallow embedding of the certificate-platform backend (`src/index.js`):
the CSV row validator `validateCsvRow`, the notifier `sendCertificateEmail`
with its 15000 ms timeout race, and the `/api/admin/upload-csv` batch
processing loop.  External collaborators (PDF renderer, Supabase upload,
MongoDB save, mail transport) are passed in as explicit function-valued
parameters; the orchestration logic mirrors the JavaScript control flow
statement by statement, with thrown errors modelled as `Except.error` and
the `try`/`catch` of the per-recipient loop as a `match`.
-/

namespace CertPlatform

/-- JavaScript `String.prototype.trim`: drop leading and trailing
whitespace characters. -/
def jsTrim (s : String) : String :=
  ⟨(((s.data.dropWhile Char.isWhitespace).reverse.dropWhile Char.isWhitespace).reverse)⟩

/-- JavaScript `String.prototype.toLowerCase`, modelled as a per-character
lower-casing. -/
def jsToLowerCase (s : String) : String :=
  ⟨s.data.map Char.toLower⟩

/-- A raw CSV row as produced by `csv-parser`: an association list from
column name to cell value (first binding wins, as in a JS object). -/
abbrev Row := List (String × String)

/-- `row[k]` followed by JS truthiness collapsing: an absent key and an
empty-string value are both falsy in every use the validator makes of a
cell, so both are represented by `""`. -/
def rowGetS (row : Row) (k : String) : String :=
  ((row.find? (fun p => p.1 == k)).map Prod.snd).getD ""

/-- JavaScript `a || b` on string cells (with absent collapsed to `""`):
keep `a` when it is truthy (non-empty), otherwise take `b`. -/
def jsOrS (a b : String) : String :=
  if a = "" then b else a

/-- A character admitted by the character class `[^\s@]` of the source's
email regex: neither whitespace nor `@`. -/
def isEmailChar (c : Char) : Bool :=
  !c.isWhitespace && !(c == '@')

/-- The source's email test `/^[^\s@]+@[^\s@]+\.[^\s@]+$/`: the whole
string splits as `local ++ "@" ++ b ++ "." ++ c` with `local`, `b`, `c`
non-empty strings of `[^\s@]` characters.  Encoded by searching for the
position `i` of the `@` and a position `j` of a dot with a non-empty
`[^\s@]` block on each side; every position other than `i` must hold an
`[^\s@]` character (which forces the `@` to be unique). -/
def emailRegexTest (s : String) : Bool :=
  let cs := s.data
  let n := cs.length
  (List.range n).any fun i =>
    (List.range n).any fun j =>
      decide (1 ≤ i) && decide (i + 2 ≤ j) && decide (j + 2 ≤ n) &&
      (cs.get? i == some '@') && (cs.get? j == some '.') &&
      ((List.range n).all fun k => k == i || (cs.get? k).all isEmailChar)

/-- Spec-side column resolution, following the spec's words: resolve a
column as the first present (truthy) value among a fixed alias list, `""`
when none is.  Used only to compare the source's `||` chains against the
spec's description of them. -/
def resolveColumn (row : Row) : List String → String
  | [] => ""
  | k :: rest => jsOrS (rowGetS row k) (resolveColumn row rest)

/-- The exact column keys `validateCsvRow` consults. -/
def relevantColumns : List String :=
  ["Name", "name", "Student Name", "student_name", "Email", "email",
    "Program", "program"]

/-- A validated recipient, as built by `validateCsvRow`'s success branch. -/
structure Recipient where
  studentName : String
  email : String
  programName : String
deriving DecidableEq, Repr

/-- Result of `validateCsvRow`: the `{valid:false, error}` /
`{valid:true, data}` object of the source. -/
inductive RowValidation where
  | invalid (error : String)
  | valid (data : Recipient)
deriving DecidableEq, Repr

/-- `row['Name'] || row['name'] || row['Student Name'] || row['student_name']`. -/
def resolvedStudentName (row : Row) : String :=
  jsOrS (jsOrS (jsOrS (rowGetS row "Name") (rowGetS row "name"))
      (rowGetS row "Student Name"))
    (rowGetS row "student_name")

/-- `row['Email'] || row['email']`. -/
def resolvedEmail (row : Row) : String :=
  jsOrS (rowGetS row "Email") (rowGetS row "email")

/-- `row['Program'] || row['program'] || 'General Program'`. -/
def resolvedProgramName (row : Row) : String :=
  jsOrS (jsOrS (rowGetS row "Program") (rowGetS row "program")) "General Program"

/-- `validateCsvRow` from `src/index.js`: resolve the three columns,
reject on a falsy name or email, reject on a regex mismatch, otherwise
return the trimmed name, the lower-cased trimmed email and the trimmed
program name. -/
def validateCsvRow (row : Row) : RowValidation :=
  let studentName := resolvedStudentName row
  let email := resolvedEmail row
  let programName := resolvedProgramName row
  if studentName = "" ∨ email = "" then
    .invalid "Missing required fields: Name and Email"
  else if !(emailRegexTest email) then
    .invalid ("Invalid email format: " ++ email)
  else
    .valid ⟨jsTrim studentName, jsToLowerCase (jsTrim email), jsTrim programName⟩

example : validateCsvRow [("Name", "Ann Lee"), ("Email", "ann@x.com")] =
    .valid ⟨"Ann Lee", "ann@x.com", "General Program"⟩ := by decide

example : validateCsvRow [("Name", "Bo"), ("Email", "not-an-email")] =
    .invalid "Invalid email format: not-an-email" := by decide

example : validateCsvRow [("Name", ""), ("Email", "a@b.com")] =
    .invalid "Missing required fields: Name and Email" := by decide

example : emailRegexTest "a@b.c" = true := by decide

example : emailRegexTest "a@b" = false := by decide

example : emailRegexTest "a b@c.d" = false := by decide

/-- The `mailOptions` data `sendCertificateEmail` hands to the transport
(the fields the pipeline varies; the fixed subject/body template is a
function of `certificateId` and is not modelled byte-for-byte). -/
structure MailOptions where
  recipientAddress : String
  studentName : String
  certificateId : String
deriving DecidableEq, Repr

/-- One behaviour of `transporter.sendMail` for a given message: how long
the transport takes (in milliseconds) and what it settles to if it is
allowed to finish. -/
structure MailAttempt where
  delay : Nat
  result : Except String Unit

/-- The timeout constant of the `Promise.race` in `sendCertificateEmail`:
`setTimeout(..., 15000)`. -/
def EMAIL_TIMEOUT_MS : Nat := 15000

/-- `sendCertificateEmail` from `src/index.js`: race the transport
against a 15000 ms timer; if the transport has not settled when the timer
fires, the call rejects with `Email send timeout`.  The `catch` block of
the source logs and re-throws, so an error propagates to the caller
unchanged. -/
def sendCertificateEmail (transport : MailOptions → MailAttempt)
    (email studentName certificateId : String) : Except String Unit :=
  let attempt := transport ⟨email, studentName, certificateId⟩
  if attempt.delay < EMAIL_TIMEOUT_MS then attempt.result
  else .error "Email send timeout"

/-- The MongoDB `Certificate` document built and saved by the loop (the
fields the pipeline computes). -/
structure IssuanceRecord where
  certificateId : String
  studentName : String
  email : String
  programName : String
  certificateUrl : String
  dateOfIssue : Nat
deriving DecidableEq, Repr

/-- An entry of `processedCertificates` (its constant `status: 'Success'`
field is omitted). -/
structure ProcessedEntry where
  studentName : String
  email : String
  certificateId : String
  certificateUrl : String
deriving DecidableEq, Repr

/-- An entry of `failedCertificates` (its constant `status: 'Failed'`
field is omitted). -/
structure FailedEntry where
  studentName : String
  email : String
  error : String
deriving DecidableEq, Repr

/-- The external collaborators the upload loop calls, passed explicitly:
`generateCertificate (studentName, certificateId, programName,
dateOfIssue)` yields the artifact bytes or throws; `uploadToSupabase
(buffer, certificateId)` yields the public URL or throws; `save` persists
a `Certificate` document or throws; `transport` is the mail transport
raced against the timeout inside `sendCertificateEmail`. -/
structure Collaborators where
  generateCertificate : String → String → String → Nat → Except String String
  uploadToSupabase : String → String → Except String String
  save : IssuanceRecord → Except String Unit
  transport : MailOptions → MailAttempt

/-- What one iteration of the upload loop produced: at most one entry for
each of the two outcome arrays, plus the side-effect trace — which
certificate ids were handed to the renderer and to the store, which
documents were persisted, and which mail sends were attempted. -/
structure StudentResult where
  processed : Option ProcessedEntry
  failed : Option FailedEntry
  rendered : List String
  uploaded : List String
  saved : List IssuanceRecord
  emailed : List MailOptions
deriving Repr

/-- One iteration of the `for (const student of results)` loop of
`/api/admin/upload-csv`, for an already generated `certificateId` and
captured `dateOfIssue`: render, upload, save, email in order inside a
single `try`; the first collaborator that throws sends the student to
`failedCertificates` with the thrown message and skips the remaining
steps; if nothing throws the student is pushed onto
`processedCertificates`. -/
def processStudent (env : Collaborators) (certificateId : String)
    (dateOfIssue : Nat) (student : Recipient) : StudentResult :=
  match env.generateCertificate student.studentName certificateId
      student.programName dateOfIssue with
  | .error e =>
    ⟨none, some ⟨student.studentName, student.email, e⟩, [certificateId], [], [], []⟩
  | .ok pdfBuffer =>
    match env.uploadToSupabase pdfBuffer certificateId with
    | .error e =>
      ⟨none, some ⟨student.studentName, student.email, e⟩,
        [certificateId], [certificateId], [], []⟩
    | .ok certificateUrl =>
      let certificate : IssuanceRecord :=
        ⟨certificateId, student.studentName, student.email,
          student.programName, certificateUrl, dateOfIssue⟩
      match env.save certificate with
      | .error e =>
        ⟨none, some ⟨student.studentName, student.email, e⟩,
          [certificateId], [certificateId], [], []⟩
      | .ok _ =>
        match sendCertificateEmail env.transport student.email
            student.studentName certificateId with
        | .error e =>
          ⟨none, some ⟨student.studentName, student.email, e⟩,
            [certificateId], [certificateId], [certificate],
            [⟨student.email, student.studentName, certificateId⟩]⟩
        | .ok _ =>
          ⟨some ⟨student.studentName, student.email, certificateId, certificateUrl⟩,
            none, [certificateId], [certificateId], [certificate],
            [⟨student.email, student.studentName, certificateId⟩]⟩

/-- The accumulated outcome of the upload loop: the two response arrays
in push order, plus the concatenated side-effect traces. -/
structure BatchOutcome where
  processed : List ProcessedEntry
  failed : List FailedEntry
  rendered : List String
  uploaded : List String
  saved : List IssuanceRecord
  emailed : List MailOptions
deriving Repr

/-- The upload loop from index `k` on: student number `k` gets
certificate id `"cert_" ++ uuids k` (modelling `cert_${uuidv4()}` with
the draws of the process's uuid source indexed in order) and issuance
date `clock k` (the `new Date()` captured on that iteration). -/
def processBatchFrom (env : Collaborators) (uuids : Nat → String)
    (clock : Nat → Nat) : Nat → List Recipient → BatchOutcome
  | _, [] => ⟨[], [], [], [], [], []⟩
  | k, student :: rest =>
    let r := processStudent env ("cert_" ++ uuids k) (clock k) student
    let tail := processBatchFrom env uuids clock (k + 1) rest
    ⟨r.processed.toList ++ tail.processed,
      r.failed.toList ++ tail.failed,
      r.rendered ++ tail.rendered,
      r.uploaded ++ tail.uploaded,
      r.saved ++ tail.saved,
      r.emailed ++ tail.emailed⟩

/-- The whole `for (const student of results)` loop. -/
def processBatch (env : Collaborators) (uuids : Nat → String)
    (clock : Nat → Nat) (students : List Recipient) : BatchOutcome :=
  processBatchFrom env uuids clock 0 students

/-- An entry of the `errors` array: the raw row together with the
validation error message. -/
structure InvalidEntry where
  row : Row
  error : String
deriving DecidableEq, Repr

/-- The CSV `data` callback applied to every parsed row in order: valid
rows are pushed onto `results`, the rest onto `errors`. -/
def classifyRows : List Row → List Recipient × List InvalidEntry
  | [] => ([], [])
  | r :: rest =>
    let acc := classifyRows rest
    match validateCsvRow r with
    | .valid d => (d :: acc.1, acc.2)
    | .invalid e => (acc.1, ⟨r, e⟩ :: acc.2)

/-- The JSON body the `end` handler responds with: the early
`400 No valid records found in CSV` answer, or the final
`200 CSV processing completed` answer with its summary counts and the
three arrays. -/
inductive CsvResponse where
  | noValidRecords (validationErrors : List InvalidEntry)
  | completed (totalRecords successfullyProcessed failedCount : Nat)
      (processed : List ProcessedEntry) (failed : List FailedEntry)
      (csvValidationErrors : List InvalidEntry)
deriving Repr

/-- The outcome of a batch whose loop never ran. -/
def emptyOutcome : BatchOutcome := ⟨[], [], [], [], [], []⟩

/-- The `end` handler of `/api/admin/upload-csv` on the parsed rows:
answer 400 with the validation errors when no row validated (the loop is
never entered, so the side-effect trace is empty), otherwise run the loop
and answer 200 with the summary and the accumulated arrays.  Returns the
response paired with the loop's side-effect trace. -/
def uploadCsvEndHandler (env : Collaborators) (uuids : Nat → String)
    (clock : Nat → Nat) (rows : List Row) : CsvResponse × BatchOutcome :=
  let results := (classifyRows rows).1
  let errors := (classifyRows rows).2
  if results.length = 0 then
    (.noValidRecords errors, emptyOutcome)
  else
    let outcome := processBatch env uuids clock results
    (.completed results.length outcome.processed.length outcome.failed.length
        outcome.processed outcome.failed errors,
      outcome)

/-! ## Concrete instances used to exercise the model -/

/-- A recipient as produced by validating `{Name: "Ann Lee",
Email: "ann@x.com"}`. -/
def demoRecipient : Recipient := ⟨"Ann Lee", "ann@x.com", "General Program"⟩

/-- A second distinct recipient. -/
def demoRecipient2 : Recipient := ⟨"Bo", "bo@y.org", "Data Science"⟩

/-- A batch of three valid recipients, the first re-submitted as the
third. -/
def demoBatch : List Recipient := [demoRecipient, demoRecipient2, demoRecipient]

/-- A transport that settles successfully well inside the timeout. -/
def okTransport : MailOptions → MailAttempt := fun _ => ⟨1, .ok ()⟩

/-- Collaborators for which every pipeline step succeeds. -/
def envAllOk : Collaborators :=
  ⟨fun _ _ _ _ => .ok "bytes", fun _ _ => .ok "https://e/u",
    fun _ => .ok (), okTransport⟩

/-- Collaborators whose artifact store rejects every upload. -/
def envStoreFail : Collaborators :=
  { envAllOk with
    uploadToSupabase := fun _ _ => .error "Failed to upload certificate: boom" }

/-- Collaborators whose mail transport faults (before the timeout). -/
def envNotifyFail : Collaborators :=
  { envAllOk with transport := fun _ => ⟨1, .error "SMTP transport fault"⟩ }

/-- An id source drawing pairwise distinct strings: draw `n` is `n`
repetitions of `a`. -/
def uuidSeq : Nat → String := fun n => ⟨List.replicate n 'a'⟩

/-- A frozen clock. -/
def clockZero : Nat → Nat := fun _ => 0

/-! ## Helper lemmas -/

theorem uuidSeq_injective : Function.Injective uuidSeq := by
  intro i j h
  have hlen := congrArg (fun s => s.data.length) h
  simpa [uuidSeq] using hlen

theorem string_append_left_cancel (a b c : String) (h : a ++ b = a ++ c) :
    b = c := by
  have hdata := congrArg String.data h
  simp only [String.data_append] at hdata
  have hbc := List.append_cancel_left hdata
  cases b
  cases c
  exact congrArg String.mk hbc

theorem jsOrS_empty_right (a : String) : jsOrS a "" = a := by
  unfold jsOrS
  split <;> simp_all

theorem jsOrS_assoc (a b c : String) :
    jsOrS (jsOrS a b) c = jsOrS a (jsOrS b c) := by
  by_cases ha : a = "" <;> by_cases hb : b = "" <;> simp [jsOrS, ha, hb]

theorem dropWhile_eq_self_of_not (p : Char → Bool) (l : List Char)
    (h : ∀ c ∈ l, p c = false) : l.dropWhile p = l := by
  cases l with
  | nil => rfl
  | cons a l => simp [List.dropWhile_cons, h a (by simp)]

theorem jsTrim_eq_self (s : String) (h : ∀ c ∈ s.data, c.isWhitespace = false) :
    jsTrim s = s := by
  unfold jsTrim
  rw [dropWhile_eq_self_of_not _ _ h,
    dropWhile_eq_self_of_not _ _ (fun c hc => h c (List.mem_reverse.mp hc)),
    List.reverse_reverse]

theorem emailRegexTest_chars (s : String) (h : emailRegexTest s = true) :
    s.data ≠ [] ∧ ∀ c ∈ s.data, c.isWhitespace = false := by
  unfold emailRegexTest at h
  simp only [List.any_eq_true, List.mem_range, Bool.and_eq_true,
    Bool.or_eq_true, decide_eq_true_eq, beq_iff_eq, List.all_eq_true] at h
  obtain ⟨i, hi, j, hj, ⟨⟨⟨⟨h1i, hij⟩, hjn⟩, hat⟩, hdot⟩, hall⟩ := h
  constructor
  · intro hnil
    rw [hnil] at hi
    simp at hi
  · intro c hc
    obtain ⟨⟨k, hk⟩, hget⟩ := List.mem_iff_get.mp hc
    have hksome : s.data.get? k = some c := List.get?_eq_get hk ▸ congrArg some hget
    rcases hall k hk with hek | hemail
    · have : some c = some '@' := by
        rw [← hksome, ← hat]
        exact congrArg s.data.get? hek
      have hc' : c = '@' := by injection this
      subst hc'
      decide
    · rw [hksome] at hemail
      simp only [Option.all_some, isEmailChar, Bool.and_eq_true,
        Bool.not_eq_true'] at hemail
      exact hemail.1

theorem emailRegex_lower_trim_ne (e : String) (h : emailRegexTest e = true) :
    jsToLowerCase (jsTrim e) ≠ "" := by
  obtain ⟨hne, hws⟩ := emailRegexTest_chars e h
  rw [jsTrim_eq_self e hws]
  unfold jsToLowerCase
  intro hcontra
  have hdata : e.data.map Char.toLower = [] := congrArg String.data hcontra
  exact hne (List.map_eq_nil_iff.mp hdata)

theorem processStudent_one_outcome (env : Collaborators) (cid : String)
    (d : Nat) (s : Recipient) :
    (processStudent env cid d s).processed.toList.length +
      (processStudent env cid d s).failed.toList.length = 1 := by
  unfold processStudent
  dsimp only
  repeat' split
  all_goals rfl

theorem processBatchFrom_length (env : Collaborators) (uuids : Nat → String)
    (clock : Nat → Nat) :
    ∀ (students : List Recipient) (k : Nat),
      (processBatchFrom env uuids clock k students).processed.length +
        (processBatchFrom env uuids clock k students).failed.length =
        students.length := by
  intro students
  induction students with
  | nil => intro k; simp [processBatchFrom]
  | cons s rest ih =>
    intro k
    have h1 := processStudent_one_outcome env ("cert_" ++ uuids k) (clock k) s
    have h2 := ih (k + 1)
    simp only [processBatchFrom, List.length_append, List.length_cons]
    omega

theorem classifyRows_length (rows : List Row) :
    (classifyRows rows).1.length + (classifyRows rows).2.length = rows.length := by
  induction rows with
  | nil => simp [classifyRows]
  | cons r rest ih =>
    simp only [classifyRows]
    cases validateCsvRow r <;> simp <;> omega

/-! ## Claim theorems -/

/-- Claim C3: for every batch, each parsed row is classified into exactly
one of invalid, succeeded or failed: the loop's two outcome arrays
together have exactly one entry per valid row
(`|succeeded| + |failed| = validRows`), and the validator's split
accounts for every input row (`validRows + |invalidRows| = totalRows`). -/
theorem batch_row_accounting (env : Collaborators) (uuids : Nat → String)
    (clock : Nat → Nat) (rows : List Row) :
    (processBatch env uuids clock (classifyRows rows).1).processed.length +
        (processBatch env uuids clock (classifyRows rows).1).failed.length =
      (classifyRows rows).1.length ∧
    (classifyRows rows).1.length + (classifyRows rows).2.length = rows.length :=
  ⟨processBatchFrom_length env uuids clock (classifyRows rows).1 0,
    classifyRows_length rows⟩

/-- Claim C4 counterexample: the validator's alias matching is not
case-insensitive.  `"NAME"` and `"EMAIL"` differ from recognized aliases
only in letter case, yet a row carrying its data under those keys is
rejected as missing name and email. -/
theorem alias_matching_not_case_insensitive :
    jsToLowerCase "NAME" = jsToLowerCase "Name" ∧
    jsToLowerCase "EMAIL" = jsToLowerCase "Email" ∧
    validateCsvRow [("NAME", "Ann Lee"), ("EMAIL", "ann@x.com")] =
      .invalid "Missing required fields: Name and Email" := by
  refine ⟨by decide, by decide, by decide⟩

/-- Claim C4 (amended): the validator resolves each column from a fixed
list of exact-spelling aliases — name from
`Name`/`name`/`Student Name`/`student_name`, email from `Email`/`email`,
program from `Program`/`program` — taking the first truthy value in
order, and falls back to `"General Program"` when program is absent or
empty; spellings in any other letter case are not recognized. -/
theorem alias_resolution_exact (row : Row) :
    resolvedStudentName row =
      resolveColumn row ["Name", "name", "Student Name", "student_name"] ∧
    resolvedEmail row = resolveColumn row ["Email", "email"] ∧
    resolvedProgramName row =
      jsOrS (resolveColumn row ["Program", "program"]) "General Program" := by
  refine ⟨?_, ?_, ?_⟩ <;>
    simp [resolvedStudentName, resolvedEmail, resolvedProgramName,
      resolveColumn, jsOrS_assoc, jsOrS_empty_right]

/-- Claim C5 counterexample: validation succeeds on a whitespace-only
name.  `"   "` is truthy in JavaScript, so the missing-field check
passes, and the returned recipient's name — trimmed — is the empty
string. -/
theorem whitespace_name_accepted :
    validateCsvRow [("Name", "   "), ("Email", "ann@x.com")] =
      .valid ⟨"", "ann@x.com", "General Program"⟩ := by decide

/-- Claim C5 (amended): when validation succeeds, the raw name and email
cells are non-empty, and the returned email is non-empty (the regex
admits no whitespace, so trimming and lower-casing preserve it); the
returned name, however, may be empty when the raw cell was
whitespace-only. -/
theorem valid_recipient_nonempty (row : Row) (r : Recipient)
    (h : validateCsvRow row = .valid r) :
    resolvedStudentName row ≠ "" ∧ resolvedEmail row ≠ "" ∧ r.email ≠ "" := by
  unfold validateCsvRow at h
  dsimp only at h
  split at h
  · exact absurd h (by simp)
  next h1 =>
    split at h
    · exact absurd h (by simp)
    next h2 =>
      push_neg at h1
      have hr : emailRegexTest (resolvedEmail row) = true := by
        simpa using h2
      injection h with h3
      refine ⟨h1.1, h1.2, ?_⟩
      rw [← h3]
      exact emailRegex_lower_trim_ne _ hr

theorem valid_recipient_nonempty_spot_check :
    resolvedStudentName [("Name", "Ann"), ("Email", "Ann@x.com")] ≠ "" ∧
    resolvedEmail [("Name", "Ann"), ("Email", "Ann@x.com")] ≠ "" ∧
    (Recipient.mk "Ann" "ann@x.com" "General Program").email ≠ "" :=
  valid_recipient_nonempty [("Name", "Ann"), ("Email", "Ann@x.com")]
    ⟨"Ann", "ann@x.com", "General Program"⟩ (by decide)

/-- Claim C7: the validator applies its rules in order — a falsy name or
email cell yields the missing-fields rejection; otherwise a regex
mismatch yields the invalid-email rejection carrying the offending
value; otherwise it succeeds with the trimmed name, the lower-cased
trimmed email, and the trimmed program. -/
theorem validateCsvRow_rule_order (row : Row) :
    ((resolvedStudentName row = "" ∨ resolvedEmail row = "") →
      validateCsvRow row = .invalid "Missing required fields: Name and Email") ∧
    (resolvedStudentName row ≠ "" → resolvedEmail row ≠ "" →
      emailRegexTest (resolvedEmail row) = false →
      validateCsvRow row = .invalid ("Invalid email format: " ++ resolvedEmail row)) ∧
    (resolvedStudentName row ≠ "" → resolvedEmail row ≠ "" →
      emailRegexTest (resolvedEmail row) = true →
      validateCsvRow row =
        .valid ⟨jsTrim (resolvedStudentName row),
          jsToLowerCase (jsTrim (resolvedEmail row)),
          jsTrim (resolvedProgramName row)⟩) := by
  unfold validateCsvRow
  dsimp only
  refine ⟨fun h => ?_, fun hn he hr => ?_, fun hn he hr => ?_⟩
  · rw [if_pos h]
  · rw [if_neg (by tauto), if_pos (by simp [hr])]
  · rw [if_neg (by tauto), if_neg (by simp [hr])]

theorem validateCsvRow_rule_order_spot_check :
    validateCsvRow [("Email", "ann@x.com")] =
      .invalid "Missing required fields: Name and Email" ∧
    validateCsvRow [("Name", "Bo"), ("Email", "not-an-email")] =
      .invalid "Invalid email format: not-an-email" ∧
    validateCsvRow [("Name", " Ann Lee "), ("Email", "Ann@X.com")] =
      .valid ⟨"Ann Lee", "ann@x.com", "General Program"⟩ := by
  refine ⟨?_, ?_, ?_⟩
  · exact (validateCsvRow_rule_order [("Email", "ann@x.com")]).1 (by decide)
  · exact ((validateCsvRow_rule_order [("Name", "Bo"), ("Email", "not-an-email")]).2.1
      (by decide) (by decide) (by decide)).trans (by decide)
  · exact ((validateCsvRow_rule_order [("Name", " Ann Lee "), ("Email", "Ann@X.com")]).2.2
      (by decide) (by decide) (by decide)).trans (by decide)

/-- Claim C8: the validator is a pure function of the row's cell values —
two rows that agree on the eight column keys the source consults receive
the same verdict, independently of other columns, binding order, or
duplicate bindings (and, being a total Lean function, it is
deterministic and total by construction). -/
theorem validateCsvRow_pure (r1 r2 : Row)
    (h : ∀ k ∈ relevantColumns, rowGetS r1 k = rowGetS r2 k) :
    validateCsvRow r1 = validateCsvRow r2 := by
  have hName : resolvedStudentName r1 = resolvedStudentName r2 := by
    unfold resolvedStudentName
    rw [h "Name" (by decide), h "name" (by decide),
      h "Student Name" (by decide), h "student_name" (by decide)]
  have hEmail : resolvedEmail r1 = resolvedEmail r2 := by
    unfold resolvedEmail
    rw [h "Email" (by decide), h "email" (by decide)]
  have hProg : resolvedProgramName r1 = resolvedProgramName r2 := by
    unfold resolvedProgramName
    rw [h "Program" (by decide), h "program" (by decide)]
  unfold validateCsvRow
  rw [hName, hEmail, hProg]

theorem validateCsvRow_pure_spot_check :
    validateCsvRow [("Extra", "zzz"), ("Email", "ann@x.com"), ("Name", "Ann")] =
      validateCsvRow [("Name", "Ann"), ("Email", "ann@x.com")] :=
  validateCsvRow_pure _ _ (by decide)

/-- Claim C2: when the upload step throws for a recipient, the `catch`
fires before the save and the email: the recipient contributes nothing
to `processedCertificates`, no document is persisted and no mail send is
attempted for it; it lands at the head of `failedCertificates` with the
thrown message, and the loop's remaining iterations are exactly those of
the rest of the batch. -/
theorem store_failure_isolated (env : Collaborators) (uuids : Nat → String)
    (clock : Nat → Nat) (k : Nat) (s : Recipient) (rest : List Recipient)
    (buf e : String)
    (hg : env.generateCertificate s.studentName ("cert_" ++ uuids k)
      s.programName (clock k) = .ok buf)
    (hu : env.uploadToSupabase buf ("cert_" ++ uuids k) = .error e) :
    processBatchFrom env uuids clock k (s :: rest) =
      ⟨(processBatchFrom env uuids clock (k + 1) rest).processed,
        ⟨s.studentName, s.email, e⟩ ::
          (processBatchFrom env uuids clock (k + 1) rest).failed,
        ("cert_" ++ uuids k) ::
          (processBatchFrom env uuids clock (k + 1) rest).rendered,
        ("cert_" ++ uuids k) ::
          (processBatchFrom env uuids clock (k + 1) rest).uploaded,
        (processBatchFrom env uuids clock (k + 1) rest).saved,
        (processBatchFrom env uuids clock (k + 1) rest).emailed⟩ := by
  simp [processBatchFrom, processStudent, hg, hu]

theorem store_failure_isolated_spot_check :
    processBatchFrom envStoreFail uuidSeq clockZero 0 [demoRecipient] =
      ⟨[], [⟨"Ann Lee", "ann@x.com", "Failed to upload certificate: boom"⟩],
        ["cert_"], ["cert_"], [], []⟩ :=
  (store_failure_isolated envStoreFail uuidSeq clockZero 0 demoRecipient []
    "bytes" "Failed to upload certificate: boom" rfl rfl).trans rfl

/-- Claim C1 counterexample: a recipient whose render, store and persist
steps succeed but whose notify step fails does NOT appear in the
succeeded list.  With collaborators where everything succeeds except the
transport, the document is persisted (so the first three steps
succeeded), yet `processedCertificates` is empty and the recipient sits
in `failedCertificates` — because the push onto `processedCertificates`
comes after the awaited `sendCertificateEmail`, whose `catch` re-throws
into the loop's `catch`. -/
theorem notify_failure_demotes :
    (processBatch envNotifyFail uuidSeq clockZero [demoRecipient]).saved =
      [⟨"cert_", "Ann Lee", "ann@x.com", "General Program", "https://e/u", 0⟩] ∧
    (processBatch envNotifyFail uuidSeq clockZero [demoRecipient]).processed = [] ∧
    (processBatch envNotifyFail uuidSeq clockZero [demoRecipient]).failed =
      [⟨"Ann Lee", "ann@x.com", "SMTP transport fault"⟩] :=
  ⟨rfl, rfl, rfl⟩

/-- Claim C1 (amended): when render, store and persist succeed and only
the notify step fails, the recipient is recorded in the failed list with
the notify error and does not appear in the succeeded list — yet its
issuance record remains persisted (the save is not rolled back), so the
issued artifact stays retrievable by id. -/
theorem notify_failure_after_persist (env : Collaborators) (cid : String)
    (d : Nat) (s : Recipient) (buf url e : String)
    (hg : env.generateCertificate s.studentName cid s.programName d = .ok buf)
    (hu : env.uploadToSupabase buf cid = .ok url)
    (hs : env.save ⟨cid, s.studentName, s.email, s.programName, url, d⟩ = .ok ())
    (hn : sendCertificateEmail env.transport s.email s.studentName cid = .error e) :
    processStudent env cid d s =
      ⟨none, some ⟨s.studentName, s.email, e⟩, [cid], [cid],
        [⟨cid, s.studentName, s.email, s.programName, url, d⟩],
        [⟨s.email, s.studentName, cid⟩]⟩ := by
  simp [processStudent, hg, hu, hs, hn]

theorem notify_failure_after_persist_spot_check :
    processStudent envNotifyFail "cert_x" 0 demoRecipient =
      ⟨none, some ⟨"Ann Lee", "ann@x.com", "SMTP transport fault"⟩,
        ["cert_x"], ["cert_x"],
        [⟨"cert_x", "Ann Lee", "ann@x.com", "General Program", "https://e/u", 0⟩],
        [⟨"ann@x.com", "Ann Lee", "cert_x"⟩]⟩ :=
  notify_failure_after_persist envNotifyFail "cert_x" 0 demoRecipient
    "bytes" "https://e/u" "SMTP transport fault" rfl rfl rfl rfl

/-- Claim C6: the notifier is raced against a fixed 15000 ms timer —
15 units of one second — and when the transport has not settled by then
the call returns the `Email send timeout` error (an `Except.error`, the
model of a caught rejection, not a crash); and whatever the transports
do, the batch loop still classifies every recipient, so no notify
timeout aborts the batch. -/
theorem notify_timeout_bounded :
    EMAIL_TIMEOUT_MS = 15 * 1000 ∧
    (∀ (transport : MailOptions → MailAttempt) (email name cid : String),
      EMAIL_TIMEOUT_MS ≤ (transport ⟨email, name, cid⟩).delay →
      sendCertificateEmail transport email name cid =
        .error "Email send timeout") ∧
    (∀ (env : Collaborators) (uuids : Nat → String) (clock : Nat → Nat)
      (students : List Recipient),
      (processBatch env uuids clock students).processed.length +
        (processBatch env uuids clock students).failed.length =
        students.length) := by
  refine ⟨rfl, fun transport email name cid h => ?_,
    fun env u c students => processBatchFrom_length env u c students 0⟩
  unfold sendCertificateEmail
  dsimp only
  rw [if_neg (by omega)]

theorem notify_timeout_bounded_spot_check :
    sendCertificateEmail (fun _ => ⟨15000, .ok ()⟩) "ann@x.com" "Ann Lee"
      "cert_x" = .error "Email send timeout" :=
  notify_timeout_bounded.2.1 (fun _ => ⟨15000, .ok ()⟩) "ann@x.com" "Ann Lee"
    "cert_x" (by decide)

theorem processBatchFrom_all_ok (env : Collaborators) (uuids : Nat → String)
    (clock : Nat → Nat)
    (hg : ∀ a b p d, ∃ v, env.generateCertificate a b p d = .ok v)
    (hu : ∀ b c, ∃ v, env.uploadToSupabase b c = .ok v)
    (hs : ∀ r, env.save r = .ok ())
    (hn : ∀ o, (env.transport o).delay < EMAIL_TIMEOUT_MS ∧
      (env.transport o).result = .ok ()) :
    ∀ (students : List Recipient) (k : Nat),
      (processBatchFrom env uuids clock k students).failed = [] ∧
      (processBatchFrom env uuids clock k students).processed.map
          (fun p => (p.studentName, p.email)) =
        students.map (fun s => (s.studentName, s.email)) ∧
      (processBatchFrom env uuids clock k students).processed.map
          ProcessedEntry.certificateId =
        (List.range' k students.length).map (fun i => "cert_" ++ uuids i) := by
  intro students
  induction students with
  | nil => intro k; simp [processBatchFrom]
  | cons s rest ih =>
    intro k
    obtain ⟨buf, hbuf⟩ :=
      hg s.studentName ("cert_" ++ uuids k) s.programName (clock k)
    obtain ⟨url, hurl⟩ := hu buf ("cert_" ++ uuids k)
    have hsave := hs ⟨"cert_" ++ uuids k, s.studentName, s.email,
      s.programName, url, clock k⟩
    have hmail : sendCertificateEmail env.transport s.email s.studentName
        ("cert_" ++ uuids k) = .ok () := by
      unfold sendCertificateEmail
      dsimp only
      rw [if_pos (hn _).1]
      exact (hn _).2
    obtain ⟨ihf, ihm, ihc⟩ := ih (k + 1)
    refine ⟨?_, ?_, ?_⟩ <;>
      simp [processBatchFrom, processStudent, hbuf, hurl, hsave, hmail,
        ihf, ihm, ihc, List.range'_succ]

/-- Claim C9: in a batch where every pipeline step succeeds, the
succeeded list has one entry per recipient in original input order (same
names and emails, in order), the `k`-th entry carries the id built from
the `k`-th draw of the id source, and — the id source being injective,
the model of uuidv4 collision-freeness — all issuance ids are pairwise
distinct; in particular a recipient submitted twice gets two distinct
ids and two distinct records, with no deduplication. -/
theorem all_success_batch (env : Collaborators) (uuids : Nat → String)
    (clock : Nat → Nat) (students : List Recipient)
    (hinj : Function.Injective uuids)
    (hg : ∀ a b p d, ∃ v, env.generateCertificate a b p d = .ok v)
    (hu : ∀ b c, ∃ v, env.uploadToSupabase b c = .ok v)
    (hs : ∀ r, env.save r = .ok ())
    (hn : ∀ o, (env.transport o).delay < EMAIL_TIMEOUT_MS ∧
      (env.transport o).result = .ok ()) :
    (processBatch env uuids clock students).failed = [] ∧
    (processBatch env uuids clock students).processed.map
        (fun p => (p.studentName, p.email)) =
      students.map (fun s => (s.studentName, s.email)) ∧
    (processBatch env uuids clock students).processed.map
        ProcessedEntry.certificateId =
      (List.range students.length).map (fun i => "cert_" ++ uuids i) ∧
    ((processBatch env uuids clock students).processed.map
        ProcessedEntry.certificateId).Nodup := by
  obtain ⟨h1, h2, h3⟩ :=
    processBatchFrom_all_ok env uuids clock hg hu hs hn students 0
  have hrange : (processBatch env uuids clock students).processed.map
      ProcessedEntry.certificateId =
      (List.range students.length).map (fun i => "cert_" ++ uuids i) := by
    rw [List.range_eq_range']
    exact h3
  refine ⟨h1, h2, hrange, ?_⟩
  rw [hrange]
  refine List.Nodup.map ?_ (List.nodup_range _)
  intro i j hij
  exact hinj (string_append_left_cancel "cert_" (uuids i) (uuids j) hij)

theorem all_success_batch_spot_check :
    (processBatch envAllOk uuidSeq clockZero demoBatch).failed = [] ∧
    (processBatch envAllOk uuidSeq clockZero demoBatch).processed.map
        (fun p => (p.studentName, p.email)) =
      demoBatch.map (fun s => (s.studentName, s.email)) ∧
    (processBatch envAllOk uuidSeq clockZero demoBatch).processed.map
        ProcessedEntry.certificateId =
      (List.range demoBatch.length).map (fun i => "cert_" ++ uuidSeq i) ∧
    ((processBatch envAllOk uuidSeq clockZero demoBatch).processed.map
        ProcessedEntry.certificateId).Nodup :=
  all_success_batch envAllOk uuidSeq clockZero demoBatch uuidSeq_injective
    (fun _ _ _ _ => ⟨"bytes", rfl⟩) (fun _ _ => ⟨"https://e/u", rfl⟩)
    (fun _ => rfl)
    (fun _ => ⟨by norm_num [envAllOk, okTransport, EMAIL_TIMEOUT_MS], rfl⟩)

/-- Claim C10: when no row passes validation, the `end` handler answers
the 400 rejection carrying the per-row validation errors and returns
before the processing loop, so no recipient enters the pipeline: the
side-effect trace is empty — no certificate id is handed to any
collaborator, nothing is rendered, uploaded, persisted or emailed. -/
theorem no_valid_rows_rejected (env : Collaborators) (uuids : Nat → String)
    (clock : Nat → Nat) (rows : List Row)
    (h : (classifyRows rows).1.length = 0) :
    uploadCsvEndHandler env uuids clock rows =
      (.noValidRecords (classifyRows rows).2, emptyOutcome) := by
  unfold uploadCsvEndHandler
  dsimp only
  rw [if_pos h]

theorem no_valid_rows_rejected_spot_check :
    uploadCsvEndHandler envAllOk uuidSeq clockZero [[("Email", "ann@x.com")]] =
      (.noValidRecords (classifyRows [[("Email", "ann@x.com")]]).2,
        emptyOutcome) :=
  no_valid_rows_rejected envAllOk uuidSeq clockZero [[("Email", "ann@x.com")]]
    (by decide)

end CertPlatform
